import Mathlib

/-!
Shallow embedding of `paper_system_poc.py` (class `PaperlySystemPOC`).

The Python program probes four external dependencies (PostgreSQL, Redis,
Elasticsearch, Neo4j), aggregates the per-component statuses into an overall
verdict, samples host metrics, and assembles a report.  Each probe body is a
try/except around vendor-client calls; we embed each probe as a total function
over an explicit description of the dependency's outcome (success value or the
raised exception's message) together with the clock readings the Python code
takes (`time.time()` before and after the calls, `datetime.now()`).

Python dictionaries with string keys are embedded as association lists
(`List (String × _)`), preserving insertion order; dictionary values of mixed
type are embedded by the inductive `DVal`.
-/

set_option autoImplicit false

namespace Paperly

/-- A Python value stored in a `details` / metrics dictionary: a string, an
integer, a number, or a nested dictionary / list of values. -/
inductive DVal where
  | str (s : String)
  | int (n : Int)
  | rat (q : ℚ)
  | list (vs : List DVal)
  | dict (fields : List (String × DVal))

/-- Embedding of the `SystemHealth` dataclass.  `response_time_ms` and
`last_check` are rational timestamps (the Python floats from `time.time()`
and `datetime.now()`); `details` is the dictionary attached to the result. -/
structure SystemHealth where
  component : String
  status : String
  response_time_ms : ℚ
  last_check : ℚ
  details : List (String × DVal)

/-- The clock readings one probe invocation makes: `t0` is `time.time()` at
entry, `t1` the `time.time()` at which the response time is computed, and
`now` the `datetime.now()` stored in `last_check`. -/
structure ProbeTimes where
  t0 : ℚ
  t1 : ℚ
  now : ℚ

/-- Outcome of the PostgreSQL interaction in `check_database_health`:
either the row count returned by `SELECT COUNT(*) FROM papers;`, or the
message of the exception raised anywhere in the try block. -/
abbrev DbOutcome := Except String Int

/-- Outcome of the Redis interaction in `check_cache_health`: either all of
ping/setex/get/delete succeeded, or some call raised with the given message. -/
abbrev CacheOutcome := Except String Unit

/-- Outcome of the Elasticsearch interaction in `check_search_health`:
the client raised (`exn`), `es.ping()` returned false (`pingFailed`), or the
ping succeeded and `es.cluster.health()` returned a dictionary whose
`status` entry is `clusterStatus` (with the remaining fields in `extra`). -/
inductive SearchOutcome where
  | exn (e : String)
  | pingFailed
  | pinged (clusterStatus : String) (extra : List (String × DVal))

/-- Outcome of the Neo4j interaction in `check_graph_health`: either the list
of records produced by `CALL dbms.components()`, or an exception message. -/
abbrev GraphOutcome := Except String (List DVal)

/-- Embedding of `PaperlySystemPOC.check_database_health` (lines 37-71). -/
def check_database_health (conn : DbOutcome) (t : ProbeTimes) : SystemHealth :=
  match conn with
  | .ok count =>
      { component := "database"
        status := "healthy"
        response_time_ms := (t.t1 - t.t0) * 1000
        last_check := t.now
        details := [("paper_count", DVal.int count)] }
  | .error e =>
      { component := "database"
        status := "unhealthy"
        response_time_ms := (t.t1 - t.t0) * 1000
        last_check := t.now
        details := [("error", DVal.str e)] }

/-- Embedding of `PaperlySystemPOC.check_cache_health` (lines 73-103). -/
def check_cache_health (ops : CacheOutcome) (t : ProbeTimes) : SystemHealth :=
  match ops with
  | .ok _ =>
      { component := "cache"
        status := "healthy"
        response_time_ms := (t.t1 - t.t0) * 1000
        last_check := t.now
        details := [("operation", DVal.str "ping_and_test")] }
  | .error e =>
      { component := "cache"
        status := "unhealthy"
        response_time_ms := (t.t1 - t.t0) * 1000
        last_check := t.now
        details := [("error", DVal.str e)] }

/-- Embedding of `PaperlySystemPOC.check_search_health` (lines 105-139). -/
def check_search_health (es : SearchOutcome) (t : ProbeTimes) : SystemHealth :=
  match es with
  | .pinged clusterStatus extra =>
      { component := "search"
        status :=
          if clusterStatus = "green" ∨ clusterStatus = "yellow"
          then "healthy" else "degraded"
        response_time_ms := (t.t1 - t.t0) * 1000
        last_check := t.now
        details := ("status", DVal.str clusterStatus) :: extra }
  | .pingFailed =>
      { component := "search"
        status := "unhealthy"
        response_time_ms := (t.t1 - t.t0) * 1000
        last_check := t.now
        details := [("error", DVal.str "ping_failed")] }
  | .exn e =>
      { component := "search"
        status := "unhealthy"
        response_time_ms := (t.t1 - t.t0) * 1000
        last_check := t.now
        details := [("error", DVal.str e)] }

/-- Embedding of `PaperlySystemPOC.check_graph_health` (lines 141-173). -/
def check_graph_health (query : GraphOutcome) (t : ProbeTimes) : SystemHealth :=
  match query with
  | .ok components =>
      { component := "graph"
        status := "healthy"
        response_time_ms := (t.t1 - t.t0) * 1000
        last_check := t.now
        details := [("components", DVal.list components)] }
  | .error e =>
      { component := "graph"
        status := "unhealthy"
        response_time_ms := (t.t1 - t.t0) * 1000
        last_check := t.now
        details := [("error", DVal.str e)] }

/-- One run's external environment: each dependency's outcome plus the clock
readings of the corresponding probe invocation. -/
structure Env where
  db : DbOutcome
  cache : CacheOutcome
  search : SearchOutcome
  graph : GraphOutcome
  dbT : ProbeTimes
  cacheT : ProbeTimes
  searchT : ProbeTimes
  graphT : ProbeTimes

/-- Embedding of `PaperlySystemPOC.run_health_checks` (lines 175-190): builds
the `health_checks` dictionary, whose literal lists the four probes in order
database, cache, search, graph. -/
def run_health_checks (env : Env) : List (String × SystemHealth) :=
  [("database", check_database_health env.db env.dbT),
   ("cache", check_cache_health env.cache env.cacheT),
   ("search", check_search_health env.search env.searchT),
   ("graph", check_graph_health env.graph env.graphT)]

/-- Embedding of `run_health_checks` at the level of probe *invocations*:
each slot of the dictionary literal is the value of a call that may itself
raise (outside the probe's internal catch).  Python evaluates the dictionary
literal's values in textual order and the first raised exception propagates
out of `run_health_checks`, which has no try/except of its own. -/
def run_health_checks_invocations
    (db cache search graph : Except String SystemHealth) :
    Except String (List (String × SystemHealth)) := do
  let d ← db
  let c ← cache
  let s ← search
  let g ← graph
  pure [("database", d), ("cache", c), ("search", s), ("graph", g)]

/-- The inputs `collect_system_metrics` reads from its surroundings: whether
`import psutil` succeeds, the three gauges psutil would report, the
`datetime.now().isoformat()` string and the uptime since `start_time`. -/
structure MetricsEnv where
  psutil_available : Bool
  cpu_percent : ℚ
  memory_percent : ℚ
  disk_percent : ℚ
  now_iso : String
  uptime_seconds : ℚ

/-- Embedding of `PaperlySystemPOC.collect_system_metrics` (lines 192-220).
When `import psutil` raises `ImportError` the function returns early with a
dictionary holding only `timestamp`; otherwise it builds the full metrics
dictionary and appends one `<component>_response_ms` entry for each component
present in `health_status`. -/
def collect_system_metrics (m : MetricsEnv)
    (health_status : List (String × SystemHealth)) : List (String × DVal) :=
  if m.psutil_available = false then
    [("timestamp", DVal.str m.now_iso)]
  else
    [("timestamp", DVal.str m.now_iso),
     ("uptime_seconds", DVal.rat m.uptime_seconds),
     ("cpu_percent", DVal.rat m.cpu_percent),
     ("memory_percent", DVal.rat m.memory_percent),
     ("disk_percent", DVal.rat m.disk_percent)]
    ++ (match health_status.lookup "database" with
        | some h => [("database_response_ms", DVal.rat h.response_time_ms)]
        | none => [])
    ++ (match health_status.lookup "cache" with
        | some h => [("cache_response_ms", DVal.rat h.response_time_ms)]
        | none => [])
    ++ (match health_status.lookup "search" with
        | some h => [("search_response_ms", DVal.rat h.response_time_ms)]
        | none => [])
    ++ (match health_status.lookup "graph" with
        | some h => [("graph_response_ms", DVal.rat h.response_time_ms)]
        | none => [])

/-- The overall-status rollup inside `generate_system_report` (lines 226-232):
`all healthy → healthy; elif any unhealthy → degraded; else healthy`. -/
def overall_status_of (statuses : List String) : String :=
  if statuses.all (fun s => s == "healthy") then "healthy"
  else if statuses.any (fun s => s == "unhealthy") then "degraded"
  else "healthy"

/-- The `component_summary` dictionary of `generate_system_report`
(lines 240-245): per-status counts plus the total. -/
structure ComponentSummary where
  healthy : Nat
  degraded : Nat
  unhealthy : Nat
  total : Nat

/-- The summary computation of `generate_system_report` (lines 240-245):
`sum(1 for s in statuses if s == ...)` for each status and `len(statuses)`. -/
def component_summary_of (statuses : List String) : ComponentSummary :=
  { healthy := statuses.countP (fun s => s == "healthy")
    degraded := statuses.countP (fun s => s == "degraded")
    unhealthy := statuses.countP (fun s => s == "unhealthy")
    total := statuses.length }

/-- Embedding of the report dictionary built by `generate_system_report`. -/
structure Report where
  overall_status : String
  timestamp : String
  uptime_seconds : ℚ
  health_checks : List (String × SystemHealth)
  system_metrics : List (String × DVal)
  component_summary : ComponentSummary

/-- Embedding of `PaperlySystemPOC.generate_system_report` (lines 222-248):
runs the health checks, collects metrics, rolls the statuses up, and
assembles the report; `uptime_seconds` is
`system_metrics.get('uptime_seconds', 0)`. -/
def generate_system_report (env : Env) (m : MetricsEnv) (nowIso : String) :
    Report :=
  let health_status := run_health_checks env
  let system_metrics := collect_system_metrics m health_status
  let statuses := health_status.map (fun p => p.2.status)
  { overall_status := overall_status_of statuses
    timestamp := nowIso
    uptime_seconds :=
      match system_metrics.lookup "uptime_seconds" with
      | some (DVal.rat q) => q
      | _ => 0
    health_checks := health_status
    system_metrics := system_metrics
    component_summary := component_summary_of statuses }

/-- The fixed demo papers of `demo_paper_processing` (lines 253-276),
abbreviated to their id and title; only the list's length and the per-paper
iteration matter to the computation. -/
def demo_papers : List (String × String) :=
  [("demo_paper_001", "Machine Learning Applications in Scientific Research"),
   ("demo_paper_002",
    "Advanced Natural Language Processing for Academic Literature")]

/-- The return value of `demo_paper_processing`. -/
structure ProcessingSummary where
  total_papers : Nat
  processed : Nat
  failed : Nat
  success_rate : ℚ

/-- Embedding of `PaperlySystemPOC.demo_paper_processing` (lines 250-296):
the loop body (log, `time.sleep(0.1)`, increment) contains no failing
operation, so every iteration increments `processed_count` and
`failed_count` stays 0. -/
def demo_paper_processing : ProcessingSummary :=
  let counts := demo_papers.foldl (fun (acc : Nat × Nat) _ => (acc.1 + 1, acc.2)) (0, 0)
  { total_papers := demo_papers.length
    processed := counts.1
    failed := counts.2
    success_rate := ((counts.1 : ℚ) / (demo_papers.length : ℚ)) * 100 }

/-- The fixed query list of `demo_search_functionality` (lines 301-306). -/
def demo_queries : List String :=
  ["machine learning", "natural language processing",
   "data analysis techniques", "scientific research methods"]

/-- The mock result list built for one query (lines 313-317). -/
def mock_results (query : String) : List (String × ℚ) :=
  [("Paper about " ++ query, 95/100),
   ("Advanced " ++ query ++ " techniques", 87/100),
   (query ++ " in practice", 73/100)]

/-- The return value of `demo_search_functionality`. -/
structure SearchSummary where
  queries_processed : Nat
  total_results : Nat
  average_results_per_query : ℚ
  sample_results : List (String × List (String × ℚ))

/-- Embedding of `PaperlySystemPOC.demo_search_functionality`
(lines 298-326). -/
def demo_search_functionality : SearchSummary :=
  let search_results := demo_queries.map (fun q => (q, mock_results q))
  { queries_processed := demo_queries.length
    total_results := (search_results.map (fun p => p.2.length)).sum
    average_results_per_query :=
      (((search_results.map (fun p => p.2.length)).sum : ℚ) /
        (demo_queries.length : ℚ))
    sample_results := search_results }

/-- The `demo_info` block of the comprehensive report (lines 340-344). -/
structure DemoInfo where
  start_time : String
  duration_seconds : ℚ
  status : String

/-- The `summary` block of the comprehensive report (lines 348-353). -/
structure DemoSummary where
  overall_health : String
  papers_processed : Nat
  search_queries : Nat
  demo_success : Bool

/-- Embedding of the comprehensive report dictionary (lines 339-354). -/
structure ComprehensiveReport where
  demo_info : DemoInfo
  system_health : Report
  paper_processing : ProcessingSummary
  search_functionality : SearchSummary
  summary : DemoSummary

/-- Embedding of `PaperlySystemPOC.run_comprehensive_demo` (lines 328-362):
the `status` and `demo_success` fields are the literals `'completed'` and
`True`, written unconditionally. -/
def run_comprehensive_demo (env : Env) (m : MetricsEnv)
    (startIso nowIso : String) (duration : ℚ) : ComprehensiveReport :=
  let system_report := generate_system_report env m nowIso
  let processing_demo := demo_paper_processing
  let search_demo := demo_search_functionality
  { demo_info :=
      { start_time := startIso
        duration_seconds := duration
        status := "completed" }
    system_health := system_report
    paper_processing := processing_demo
    search_functionality := search_demo
    summary :=
      { overall_health := system_report.overall_status
        papers_processed := processing_demo.processed
        search_queries := search_demo.queries_processed
        demo_success := true } }

/-! ## Helper lemmas -/

/-- Whatever the database outcome, the probe's status is one of the three
status strings. -/
theorem check_database_health_status_mem (db : DbOutcome) (t : ProbeTimes) :
    (check_database_health db t).status = "healthy" ∨
    (check_database_health db t).status = "degraded" ∨
    (check_database_health db t).status = "unhealthy" := by
  cases db <;> simp [check_database_health]

/-- Whatever the cache outcome, the probe's status is one of the three
status strings. -/
theorem check_cache_health_status_mem (ops : CacheOutcome) (t : ProbeTimes) :
    (check_cache_health ops t).status = "healthy" ∨
    (check_cache_health ops t).status = "degraded" ∨
    (check_cache_health ops t).status = "unhealthy" := by
  cases ops <;> simp [check_cache_health]

/-- Whatever the search outcome, the probe's status is one of the three
status strings. -/
theorem check_search_health_status_mem (es : SearchOutcome) (t : ProbeTimes) :
    (check_search_health es t).status = "healthy" ∨
    (check_search_health es t).status = "degraded" ∨
    (check_search_health es t).status = "unhealthy" := by
  cases es with
  | exn e => simp [check_search_health]
  | pingFailed => simp [check_search_health]
  | pinged cs extra =>
      simp only [check_search_health]
      split <;> simp

/-- Whatever the graph outcome, the probe's status is one of the three
status strings. -/
theorem check_graph_health_status_mem (query : GraphOutcome) (t : ProbeTimes) :
    (check_graph_health query t).status = "healthy" ∨
    (check_graph_health query t).status = "degraded" ∨
    (check_graph_health query t).status = "unhealthy" := by
  cases query <;> simp [check_graph_health]

/-- Counting each of the three statuses partitions a list drawn from the
three status strings. -/
theorem countP_status_partition (l : List String)
    (h : ∀ s ∈ l, s = "healthy" ∨ s = "degraded" ∨ s = "unhealthy") :
    l.countP (fun s => s == "healthy") + l.countP (fun s => s == "degraded")
      + l.countP (fun s => s == "unhealthy") = l.length := by
  induction l with
  | nil => rfl
  | cons a tl ih =>
      have ih' := ih (fun s hs => h s (List.mem_cons_of_mem a hs))
      rcases h a (List.mem_cons_self a tl) with ha | ha | ha <;> subst ha <;>
        simp [List.countP_cons, ← ih'] <;> omega

/-- The statuses fed to the rollup by `generate_system_report` are drawn from
the three status strings. -/
theorem run_health_checks_statuses_mem (env : Env) :
    ∀ s ∈ (run_health_checks env).map (fun p => p.2.status),
      s = "healthy" ∨ s = "degraded" ∨ s = "unhealthy" := by
  intro s hs
  simp only [run_health_checks, List.map_cons, List.map_nil, List.mem_cons,
    List.not_mem_nil, or_false] at hs
  rcases hs with h | h | h | h <;> subst h
  · exact check_database_health_status_mem env.db env.dbT
  · exact check_cache_health_status_mem env.cache env.cacheT
  · exact check_search_health_status_mem env.search env.searchT
  · exact check_graph_health_status_mem env.graph env.graphT

/-- The rollup collapses to: "degraded" when some status is "unhealthy",
"healthy" otherwise (both the all-healthy branch and the final else produce
"healthy"). -/
theorem overall_status_of_eq (statuses : List String) :
    overall_status_of statuses =
      if statuses.any (fun s => s == "unhealthy") then "degraded"
      else "healthy" := by
  unfold overall_status_of
  cases hany : statuses.any (fun s => s == "unhealthy") with
  | false =>
      by_cases hall : statuses.all (fun s => s == "healthy") <;> simp [hall]
  | true =>
      have hall : statuses.all (fun s => s == "healthy") = false := by
        obtain ⟨s, hs, hu⟩ := List.any_eq_true.1 hany
        rw [beq_iff_eq] at hu
        subst hu
        apply eq_false_of_ne_true
        intro hcontra
        have hh := List.all_eq_true.1 hcontra _ hs
        rw [beq_iff_eq] at hh
        exact absurd hh (by decide)
      simp [hall]

/-! ## Claims -/

/-- C1: over any list of statuses drawn from {healthy, degraded, unhealthy},
the rollup of `generate_system_report` returns "healthy" when every status is
"healthy", returns "degraded" exactly when some status is "unhealthy", and
returns "healthy" exactly when no status is "unhealthy" (in particular on a
degraded-only list and on the empty list). -/
theorem overall_status_spec (statuses : List String)
    (h : ∀ s ∈ statuses, s = "healthy" ∨ s = "degraded" ∨ s = "unhealthy") :
    ((∀ s ∈ statuses, s = "healthy") → overall_status_of statuses = "healthy") ∧
    (overall_status_of statuses = "healthy" ↔ ∀ s ∈ statuses, s ≠ "unhealthy") ∧
    (overall_status_of statuses = "degraded" ↔ ∃ s ∈ statuses, s = "unhealthy") := by
  clear h
  have key := overall_status_of_eq statuses
  have hiff : statuses.any (fun s => s == "unhealthy") = true ↔
      ∃ s ∈ statuses, s = "unhealthy" := by
    simp [List.any_eq_true]
  cases hany : statuses.any (fun s => s == "unhealthy") with
  | false =>
      rw [hany] at key
      simp only [Bool.false_eq_true, if_false] at key
      have hnone : ∀ s ∈ statuses, s ≠ "unhealthy" := by
        intro s hs hu
        have hc : statuses.any (fun s => s == "unhealthy") = true :=
          hiff.2 ⟨s, hs, hu⟩
        rw [hany] at hc
        exact absurd hc (by decide)
      refine ⟨fun _ => key, ⟨fun _ => hnone, fun _ => key⟩, ?_, ?_⟩
      · intro hd
        rw [key] at hd
        exact absurd hd (by decide)
      · intro hex
        have hc := hiff.2 hex
        rw [hany] at hc
        exact absurd hc (by decide)
  | true =>
      rw [hany] at key
      simp only [if_true] at key
      obtain ⟨s, hs, hu⟩ := hiff.1 hany
      refine ⟨?_, ⟨?_, ?_⟩, fun _ => ⟨s, hs, hu⟩, fun _ => key⟩
      · intro hall
        have hh := hall s hs
        rw [hh] at hu
        exact absurd hu (by decide)
      · intro hh
        rw [key] at hh
        exact absurd hh (by decide)
      · intro hnone
        exact absurd hu (hnone s hs)

/-- Witness for C1: on the degraded-only list of four statuses the rollup
returns "healthy" (the documented quirk). -/
theorem overall_status_spec_witness :
    overall_status_of ["degraded", "degraded", "degraded", "degraded"]
      = "healthy" := by
  have h := overall_status_spec ["degraded", "degraded", "degraded", "degraded"]
    (by decide)
  exact h.2.1.mpr (by decide)

/-- C2: in every report produced by `generate_system_report`, the summary's
`total` equals the number of entries of `health_checks`, and the three
per-status counts sum to `total`. -/
theorem summary_invariant (env : Env) (m : MetricsEnv) (nowIso : String) :
    (generate_system_report env m nowIso).component_summary.total
      = (generate_system_report env m nowIso).health_checks.length ∧
    (generate_system_report env m nowIso).component_summary.healthy
      + (generate_system_report env m nowIso).component_summary.degraded
      + (generate_system_report env m nowIso).component_summary.unhealthy
      = (generate_system_report env m nowIso).component_summary.total := by
  constructor
  · simp [generate_system_report, component_summary_of]
  · simp only [generate_system_report, component_summary_of]
    exact countP_status_partition _ (run_health_checks_statuses_mem env)

/-- C3 counterexample: the claim demands a *non-empty* `details.error` for
every raised error, but each probe stores `str(e)` verbatim; an exception
whose string representation is empty (e.g. `Exception()` in Python) yields
an Unhealthy result whose `details.error` is the empty string. -/
theorem probe_error_empty_details_cex :
    (check_database_health (Except.error "") ⟨0, 0, 0⟩).status = "unhealthy" ∧
    (check_database_health (Except.error "") ⟨0, 0, 0⟩).details.lookup "error"
      = some (DVal.str "") := ⟨rfl, rfl⟩

/-- C3 (amended): every probe converts a raised dependency error into a
result with status "unhealthy" whose `details.error` holds exactly the
error's string representation (hence non-empty whenever that representation
is); the probe itself is a total function, so the error never propagates. -/
theorem probe_error_handling (e : String) (t : ProbeTimes) :
    ((check_database_health (Except.error e) t).status = "unhealthy" ∧
     (check_database_health (Except.error e) t).details.lookup "error"
       = some (DVal.str e)) ∧
    ((check_cache_health (Except.error e) t).status = "unhealthy" ∧
     (check_cache_health (Except.error e) t).details.lookup "error"
       = some (DVal.str e)) ∧
    ((check_search_health (SearchOutcome.exn e) t).status = "unhealthy" ∧
     (check_search_health (SearchOutcome.exn e) t).details.lookup "error"
       = some (DVal.str e)) ∧
    ((check_graph_health (Except.error e) t).status = "unhealthy" ∧
     (check_graph_health (Except.error e) t).details.lookup "error"
       = some (DVal.str e)) :=
  ⟨⟨rfl, rfl⟩, ⟨rfl, rfl⟩, ⟨rfl, rfl⟩, ⟨rfl, rfl⟩⟩

/-- C4 counterexample: `run_health_checks` has no try/except of its own, so
when the database probe's invocation itself raises (outside its internal
catch) the whole run propagates that error instead of producing a mapping
with an Unhealthy substitute. -/
theorem run_health_checks_defect_cex :
    run_health_checks_invocations (Except.error "defect")
      (Except.ok (check_cache_health (Except.ok ()) ⟨0, 0, 0⟩))
      (Except.ok (check_search_health SearchOutcome.pingFailed ⟨0, 0, 0⟩))
      (Except.ok (check_graph_health (Except.ok []) ⟨0, 0, 0⟩))
      = Except.error "defect" := rfl

/-- C4 (amended): if any probe invocation throws outside its internal catch,
`run_health_checks` propagates that first exception — it does not substitute
an Unhealthy result for the failing probe — and the four-entry mapping is
produced exactly when all four invocations return normally. -/
theorem run_health_checks_invocations_spec (e : String)
    (pc ps pg : Except String SystemHealth) (d c s g : SystemHealth) :
    run_health_checks_invocations (Except.error e) pc ps pg
      = Except.error e ∧
    run_health_checks_invocations (Except.ok d) (Except.error e) ps pg
      = Except.error e ∧
    run_health_checks_invocations (Except.ok d) (Except.ok c) (Except.error e) pg
      = Except.error e ∧
    run_health_checks_invocations (Except.ok d) (Except.ok c) (Except.ok s)
        (Except.error e)
      = Except.error e ∧
    run_health_checks_invocations (Except.ok d) (Except.ok c) (Except.ok s)
        (Except.ok g)
      = Except.ok [("database", d), ("cache", c), ("search", s), ("graph", g)] :=
  ⟨rfl, rfl, rfl, rfl, rfl⟩

/-- C5 counterexample: when `import psutil` fails, `collect_system_metrics`
returns early with a dictionary holding *only* `timestamp` — contrary to the
claim, `uptime_seconds` is omitted as well, not just the host gauges. -/
theorem collect_system_metrics_uptime_cex :
    (collect_system_metrics ⟨false, 0, 0, 0, "2024-01-01T00:00:00", 0⟩
        []).lookup "uptime_seconds" = none ∧
    (collect_system_metrics ⟨false, 0, 0, 0, "2024-01-01T00:00:00", 0⟩
        []).lookup "timestamp" = some (DVal.str "2024-01-01T00:00:00") :=
  ⟨rfl, rfl⟩

/-- C5 (amended): the metrics dictionary always contains `timestamp`; it
contains `uptime_seconds` (and the host gauges) exactly when the sampling
facility is available — when `import psutil` fails the function returns the
one-entry dictionary holding only `timestamp`, never an error. -/
theorem collect_system_metrics_keys (avail : Bool) (cpu mem disk upt : ℚ)
    (iso : String) (hs : List (String × SystemHealth)) :
    (collect_system_metrics ⟨avail, cpu, mem, disk, iso, upt⟩ hs).lookup
        "timestamp" = some (DVal.str iso) ∧
    (collect_system_metrics ⟨true, cpu, mem, disk, iso, upt⟩ hs).lookup
        "uptime_seconds" = some (DVal.rat upt) ∧
    collect_system_metrics ⟨false, cpu, mem, disk, iso, upt⟩ hs
      = [("timestamp", DVal.str iso)] := by
  refine ⟨?_, rfl, rfl⟩
  cases avail <;> rfl

/-- C6: the search probe maps a successful ping with cluster status green or
yellow to "healthy", a successful ping with any other cluster status to
"degraded", and a failed ping or a raised error to "unhealthy". -/
theorem check_search_health_spec (cs : String) (extra : List (String × DVal))
    (e : String) (t : ProbeTimes) :
    (check_search_health (SearchOutcome.pinged cs extra) t).status
      = (if cs = "green" ∨ cs = "yellow" then "healthy" else "degraded") ∧
    (check_search_health SearchOutcome.pingFailed t).status = "unhealthy" ∧
    (check_search_health (SearchOutcome.exn e) t).status = "unhealthy" :=
  ⟨rfl, rfl, rfl⟩

/-- C7: whatever a probe's outcome (success or failure), its result's
`response_time_ms` equals `(t1 - t0) * 1000` — the difference of the two
`time.time()` readings in milliseconds — and is non-negative whenever the
second clock reading is not earlier than the first. -/
theorem latency_populated_nonneg (db : DbOutcome) (ca : CacheOutcome)
    (es : SearchOutcome) (gr : GraphOutcome) (t : ProbeTimes)
    (h : t.t0 ≤ t.t1) :
    ((check_database_health db t).response_time_ms = (t.t1 - t.t0) * 1000 ∧
     0 ≤ (check_database_health db t).response_time_ms) ∧
    ((check_cache_health ca t).response_time_ms = (t.t1 - t.t0) * 1000 ∧
     0 ≤ (check_cache_health ca t).response_time_ms) ∧
    ((check_search_health es t).response_time_ms = (t.t1 - t.t0) * 1000 ∧
     0 ≤ (check_search_health es t).response_time_ms) ∧
    ((check_graph_health gr t).response_time_ms = (t.t1 - t.t0) * 1000 ∧
     0 ≤ (check_graph_health gr t).response_time_ms) := by
  have hnn : 0 ≤ (t.t1 - t.t0) * 1000 :=
    mul_nonneg (sub_nonneg.2 h) (by norm_num)
  have hdb : (check_database_health db t).response_time_ms
      = (t.t1 - t.t0) * 1000 := by cases db <;> rfl
  have hca : (check_cache_health ca t).response_time_ms
      = (t.t1 - t.t0) * 1000 := by cases ca <;> rfl
  have hes : (check_search_health es t).response_time_ms
      = (t.t1 - t.t0) * 1000 := by cases es <;> rfl
  have hgr : (check_graph_health gr t).response_time_ms
      = (t.t1 - t.t0) * 1000 := by cases gr <;> rfl
  exact ⟨⟨hdb, by rw [hdb]; exact hnn⟩, ⟨hca, by rw [hca]; exact hnn⟩,
         ⟨hes, by rw [hes]; exact hnn⟩, ⟨hgr, by rw [hgr]; exact hnn⟩⟩

/-- Witness for C7 at clock readings 1 and 3: every probe reports
(3 - 1) * 1000 = 2000 milliseconds, non-negative, on success and failure
outcomes alike. -/
theorem latency_populated_nonneg_witness :
    ((check_database_health (Except.error "boom") ⟨1, 3, 3⟩).response_time_ms
        = ((3 : ℚ) - 1) * 1000 ∧
     0 ≤ (check_database_health (Except.error "boom")
        ⟨1, 3, 3⟩).response_time_ms) ∧
    ((check_cache_health (Except.ok ()) ⟨1, 3, 3⟩).response_time_ms
        = ((3 : ℚ) - 1) * 1000 ∧
     0 ≤ (check_cache_health (Except.ok ()) ⟨1, 3, 3⟩).response_time_ms) ∧
    ((check_search_health (SearchOutcome.pinged "green" [])
        ⟨1, 3, 3⟩).response_time_ms = ((3 : ℚ) - 1) * 1000 ∧
     0 ≤ (check_search_health (SearchOutcome.pinged "green" [])
        ⟨1, 3, 3⟩).response_time_ms) ∧
    ((check_graph_health (Except.ok []) ⟨1, 3, 3⟩).response_time_ms
        = ((3 : ℚ) - 1) * 1000 ∧
     0 ≤ (check_graph_health (Except.ok []) ⟨1, 3, 3⟩).response_time_ms) :=
  latency_populated_nonneg (Except.error "boom") (Except.ok ())
    (SearchOutcome.pinged "green" []) (Except.ok []) ⟨1, 3, 3⟩
    (show (1 : ℚ) ≤ 3 by norm_num)

/-- C8: for every environment, `run_health_checks` returns its entries under
exactly the keys "database", "cache", "search", "graph", in that registration
order, with no duplicate key. -/
theorem run_health_checks_keys (env : Env) :
    (run_health_checks env).map Prod.fst
      = ["database", "cache", "search", "graph"] ∧
    ((run_health_checks env).map Prod.fst).Nodup := by
  refine ⟨rfl, ?_⟩
  have hkeys : (run_health_checks env).map Prod.fst
      = ["database", "cache", "search", "graph"] := rfl
  rw [hkeys]
  decide

/-- C9: the comprehensive demo's report carries `demo_success = True` and
`demo_info.status = "completed"` unconditionally — for every health
environment — and the paper-processing demo over its fixed two-paper input
always reports processed = 2, failed = 0, success_rate = 100. -/
theorem run_comprehensive_demo_spec (env : Env) (m : MetricsEnv)
    (startIso nowIso : String) (dur : ℚ) :
    (run_comprehensive_demo env m startIso nowIso dur).summary.demo_success
      = true ∧
    (run_comprehensive_demo env m startIso nowIso dur).demo_info.status
      = "completed" ∧
    (run_comprehensive_demo env m startIso nowIso
        dur).paper_processing.processed = 2 ∧
    (run_comprehensive_demo env m startIso nowIso
        dur).paper_processing.failed = 0 ∧
    (run_comprehensive_demo env m startIso nowIso
        dur).paper_processing.success_rate = 100 := by
  refine ⟨rfl, rfl, rfl, rfl, ?_⟩
  show ((2 : ℕ) : ℚ) / ((2 : ℕ) : ℚ) * 100 = 100
  norm_num

/-- C10: in the mapping returned by `run_health_checks`, every stored
result's `component` field equals its key, whatever branch each probe
took. -/
theorem results_component_matches_key (env : Env) :
    ∀ p ∈ run_health_checks env, p.2.component = p.1 := by
  obtain ⟨db, ca, es, gr, tdb, tca, tes, tgr⟩ := env
  intro p hp
  simp only [run_health_checks, List.mem_cons, List.not_mem_nil,
    or_false] at hp
  rcases hp with h | h | h | h <;> subst h
  · cases db <;> rfl
  · cases ca <;> rfl
  · cases es <;> rfl
  · cases gr <;> rfl

/-- Witness for C10: in a concrete run, the entry under "database" carries
`component = "database"`. -/
theorem results_component_matches_key_witness :
    (check_database_health (Except.ok 7) ⟨0, 2, 2⟩).component = "database" :=
  results_component_matches_key
    ⟨Except.ok 7, Except.ok (), SearchOutcome.pingFailed, Except.ok [],
     ⟨0, 2, 2⟩, ⟨0, 2, 2⟩, ⟨0, 2, 2⟩, ⟨0, 2, 2⟩⟩
    ("database", check_database_health (Except.ok 7) ⟨0, 2, 2⟩)
    (List.mem_cons_self _ _)

end Paperly
